import Mathlib

/-!
Verification of the ArchiModule repository against its specification.

The 3D-generation HTTP client is embedded from the TypeScript service class
in `FRONTEND_3D_MODEL_MANUAL.md` (Hitem3DService: submitImages, getResult,
pollResult, the handleSubmit component handler, the task-state / progress /
format tables).  The video-player arithmetic is embedded from
`Gui/VideoPlayerWidget.cpp` (frameIndexToPosition, positionToFrameIndex,
setVolume, volume, updateFrameMapping, onDurationChanged), with C++ `double`
arithmetic modelled exactly over the rationals and `std::llround` modelled by
`round` (both round half away from zero, and all rounded quantities here are
nonnegative, where the two conventions agree).
-/

namespace ArchiSpec

/-- Task lifecycle states of the remote generation service
(`state:'created'|'queueing'|'processing'|'success'|'failed'` in
`Hitem3DQueryResult`). -/
inductive TaskState where
  | created
  | queueing
  | processing
  | success
  | failed
deriving DecidableEq, Repr

/-- Position of a state along the lifecycle
`created → queueing → processing → {success|failed}`. -/
def stateRank : TaskState → Nat
  | .created => 0
  | .queueing => 1
  | .processing => 2
  | .success => 3
  | .failed => 3

/-- A state is terminal when it is `success` or `failed`. -/
def terminalState (s : TaskState) : Bool :=
  s = TaskState.success || s = TaskState.failed

/-- Modelled from the spec: the remote service's listed lifecycle transitions
`created → queueing → processing → {success|failed}`.  The service itself is a
third-party system outside this repository; only its documented state machine
is modelled. -/
inductive StateStep : TaskState → TaskState → Prop where
  | created_queueing : StateStep .created .queueing
  | queueing_processing : StateStep .queueing .processing
  | processing_success : StateStep .processing .success
  | processing_failed : StateStep .processing .failed

/-- Zero or more lifecycle transitions: what the service may do between two
consecutive polls of the client. -/
def StateReach : TaskState → TaskState → Prop :=
  Relation.ReflTransGen StateStep

/-- The body of a status-query response as read by `pollResult`
(legacy `progress` field plus the `state` and optional `message` fields the
polling loop branches on). -/
structure PollResponse where
  progress : Int
  state : TaskState
  message : Option String
deriving DecidableEq, Repr

/-- An HTTP response to `GET /get-object` as seen by `getResult`:
the `ok` flag, the raw response text (read on failure), and the parsed JSON
body (read on success). -/
structure QueryResponse where
  ok : Bool
  text : String
  body : PollResponse
deriving DecidableEq, Repr

/-- An HTTP response to `POST /submit-images` as seen by `submitImages`. -/
structure SubmitResponse where
  ok : Bool
  text : String
  task_id : String
deriving DecidableEq, Repr

def submitFailedMsg (t : String) : String :=
  "Submit failed: " ++ t

def getResultFailedMsg (t : String) : String :=
  "Get result failed: " ++ t

def genFailedMsg : String :=
  "Generation failed"

/-- `Hitem3DService.submitImages`: throw on a non-2xx response (carrying the
response text), otherwise return the body's `task_id`. -/
def submitImages (resp : SubmitResponse) : Except String String :=
  if resp.ok then Except.ok resp.task_id
  else Except.error (submitFailedMsg resp.text)

/-- `Hitem3DService.getResult`: throw on a non-2xx response (carrying the
response text), otherwise return the parsed body. -/
def getResult (resp : QueryResponse) : Except String PollResponse :=
  if resp.ok then Except.ok resp.body
  else Except.error (getResultFailedMsg resp.text)

def submitImagesPath : String :=
  "/submit-images"

def getObjectPath : String :=
  "/get-object?task_id="

def legacyParam : String :=
  "&legacy="

def trueStr : String :=
  "true"

def falseStr : String :=
  "false"

/-- URL built by `submitImages`. -/
def submitImagesUrl (base : String) : String :=
  base ++ submitImagesPath

/-- URL built by `getResult`: query parameters `task_id` and `legacy`. -/
def getObjectUrl (base taskId : String) (legacy : Bool) : String :=
  base ++ getObjectPath ++ taskId ++ legacyParam ++
    (if legacy then trueStr else falseStr)

/-- What one iteration of the `poll` closure in `pollResult` does after a
successful `getResult`. -/
inductive PollAction where
  | resolve (r : PollResponse)
  | reject (msg : String)
  | continueAfter (delayMs : Nat)
deriving DecidableEq, Repr

/-- One iteration of `pollResult`'s `poll` closure on a parsed response:
resolve on `success`, reject on `failed` with the attached message (or the
generic message when absent), otherwise schedule one more poll via
`setTimeout(poll, 2000)`. -/
def pollStep (r : PollResponse) : PollAction :=
  if r.state = TaskState.success then PollAction.resolve r
  else if r.state = TaskState.failed then
    PollAction.reject (r.message.getD genFailedMsg)
  else PollAction.continueAfter 2000

/-- Final outcome of the promise returned by `pollResult`. -/
inductive PollOutcome where
  | resolved (r : PollResponse)
  | rejected (msg : String)
  | pending
deriving DecidableEq, Repr

/-- `pollResult` run against a stream of status-endpoint responses, one
response consumed per poll: each iteration calls `getResult`; a thrown error
rejects, `success` resolves, `failed` rejects, and any other state continues
with the next response.  `pending` is the outcome when the finite stream is
exhausted with the loop still scheduled. -/
def pollResult : List QueryResponse → PollOutcome
  | [] => PollOutcome.pending
  | q :: rest =>
    match getResult q with
    | Except.error e => PollOutcome.rejected e
    | Except.ok r =>
      match pollStep r with
      | PollAction.resolve x => PollOutcome.resolved x
      | PollAction.reject m => PollOutcome.rejected m
      | PollAction.continueAfter _ => pollResult rest

/-- The sequence of response bodies the polling loop actually observes: it
stops at the first thrown error and consumes (inclusively) up to the first
terminal state. -/
def pollObserved : List QueryResponse → List PollResponse
  | [] => []
  | q :: rest =>
    match getResult q with
    | Except.error _ => []
    | Except.ok r =>
      if terminalState r.state then [r] else r :: pollObserved rest

/-- The request body of `POST /submit-images` (`Hitem3DSubmitRequest`):
optional labelled image references plus generation parameters. -/
structure Hitem3DSubmitRequest where
  front : Option String
  back : Option String
  left : Option String
  right : Option String
  other : Option String
  request_type : Option Int
  model : Option String
  resolution : Option String
  face : Option Int
  format : Option Int
  callback_url : Option String
deriving DecidableEq, Repr

/-- The component's `imagePaths` state: only the five view labels can ever be
set. -/
structure ImagePaths where
  front : Option String
  back : Option String
  left : Option String
  right : Option String
  other : Option String
deriving DecidableEq, Repr

/-- `Object.keys(imagePaths).length`: the number of labels currently set. -/
def countKeys (p : ImagePaths) : Nat :=
  ([p.front, p.back, p.left, p.right, p.other].filter Option.isSome).length

/-- The number of image labels set in a submit request body. -/
def requestImageCount (r : Hitem3DSubmitRequest) : Nat :=
  ([r.front, r.back, r.left, r.right, r.other].filter Option.isSome).length

def hitemModelName : String :=
  "hitem3dv1.5"

/-- The component's `handleSubmit`: return early when no labelled image is
set, otherwise build the request from the current `imagePaths` plus the fixed
parameters (`model: hitem3dv1.5`, `format: 2`, `request_type: 3`). -/
def handleSubmit (p : ImagePaths) : Option Hitem3DSubmitRequest :=
  if countKeys p = 0 then none
  else some ⟨p.front, p.back, p.left, p.right, p.other,
    some 3, some hitemModelName, none, none, some 2, none⟩

/-- The four downloadable asset formats of the File Formats table. -/
inductive ModelFormat where
  | obj
  | glb
  | stl
  | fbx
deriving DecidableEq, Repr

/-- The integer format codes of the submit request:
`1=obj, 2=glb, 3=stl, 4=fbx`. -/
def formatOfCode (code : Int) : Option ModelFormat :=
  if code = 1 then some ModelFormat.obj
  else if code = 2 then some ModelFormat.glb
  else if code = 3 then some ModelFormat.stl
  else if code = 4 then some ModelFormat.fbx
  else none

/-- The default of the `format` field (`Default: 2`). -/
def defaultFormatCode : Int :=
  2

/-- The Task States and Progress table: the client-side percentage displayed
for each state. -/
def stateProgress : TaskState → Int
  | .created => 5
  | .queueing => 20
  | .processing => 60
  | .success => 100
  | .failed => 0

/-- The progress value `pollResult` hands to its `onProgress` callback: the
server-sent legacy `progress` field of the response, untouched. -/
def reportedProgress (r : PollResponse) : Int :=
  r.progress

/-! ## Video player (`Gui/VideoPlayerWidget.cpp`) -/

/-- `std::clamp(v, lo, hi)`. -/
def cppClamp (v lo hi : Int) : Int :=
  if v < lo then lo else if hi < v then hi else v

/-- `static_cast<int>` of a C++ double: truncation toward zero. -/
def truncToInt (q : ℚ) : Int :=
  if q < 0 then -(Int.floor (-q)) else Int.floor q

/-- `VideoPlayerWidget::frameIndexToPosition`: when the frame rate is not
positive return the index unchanged, otherwise round
`(frameIndex / m_frameRate) * 1000` to milliseconds. -/
def frameIndexToPosition (frameRate : ℚ) (frameIndex : Int) : Int :=
  if frameRate ≤ 0 then frameIndex
  else round ((frameIndex : ℚ) / frameRate * 1000)

/-- `VideoPlayerWidget::positionToFrameIndex`: when the frame rate is not
positive return the position unchanged, otherwise round
`(position * m_frameRate) / 1000` and clamp into
`[0, max 0 (m_totalFrames - 1)]`. -/
def positionToFrameIndex (frameRate : ℚ) (totalFrames : Int) (position : Int) :
    Int :=
  if frameRate ≤ 0 then position
  else cppClamp (round ((position : ℚ) * frameRate / 1000)) 0
    (max 0 (totalFrames - 1))

/-- `VideoPlayerWidget::setVolume` acting on the audio output's volume
fraction (absent when `m_audioOutput` is null): clamp the argument into
`[0, 100]` and set the fraction to `clamped / 100.0`; no-op when the output
is absent. -/
def setVolume (audioOutput : Option ℚ) (v : Int) : Option ℚ :=
  match audioOutput with
  | none => none
  | some _ => some (((cppClamp v 0 100 : Int) : ℚ) / 100)

/-- `VideoPlayerWidget::volume`: `0` when the audio output is absent,
otherwise `static_cast<int>(volume * 100.0)`. -/
def volume (audioOutput : Option ℚ) : Int :=
  match audioOutput with
  | none => 0
  | some q => truncToInt (q * 100)

/-- `VideoPlayerWidget::updateFrameMapping`: the frame rate read from the
media metadata (absent when the `QVariant` is invalid), falling back to 30
when missing or non-positive; the total frame count rounded from
`duration * rate / 1000` and forced to at least 1 when the duration is
positive, and 0 otherwise.  Returns `(m_frameRate, m_totalFrames)`. -/
def updateFrameMapping (metaFrameRate : Option ℚ) (duration : Int) : ℚ × Int :=
  let rate0 : ℚ := match metaFrameRate with
    | some v => v
    | none => 0
  let rate : ℚ := if rate0 ≤ 0 then 30 else rate0
  let totalFrames : Int :=
    if 0 < duration then max 1 (round ((duration : ℚ) * rate / 1000)) else 0
  (rate, totalFrames)

/-- `VideoPlayerWidget::onDurationChanged`: after recomputing the frame
mapping, the position slider's range is set to
`[0, max 0 (m_totalFrames - 1)]`. -/
def sliderRangeAfterDuration (metaFrameRate : Option ℚ) (duration : Int) :
    Int × Int :=
  (0, max 0 ((updateFrameMapping metaFrameRate duration).2 - 1))

/-- A concrete response text used in witnesses. -/
def noText : String :=
  "ok"

/-- A concrete task identifier used in witnesses. -/
def taskIdDemo : String :=
  "task-42"

/-! ## Helper lemmas -/

theorem cppClamp_mem (v lo hi : Int) (h : lo ≤ hi) :
    lo ≤ cppClamp v lo hi ∧ cppClamp v lo hi ≤ hi := by
  unfold cppClamp
  split_ifs <;> omega

theorem cppClamp_eq_self (v lo hi : Int) (h1 : lo ≤ v) (h2 : v ≤ hi) :
    cppClamp v lo hi = v := by
  unfold cppClamp
  split_ifs <;> omega

theorem truncToInt_intCast (n : Int) : truncToInt (n : ℚ) = n := by
  unfold truncToInt
  split_ifs with h
  · rw [← Int.cast_neg, Int.floor_intCast]
    omega
  · rw [Int.floor_intCast]

/-! ## Claim theorems -/

/-- Claim C4: a 2xx submit response's `task_id` is returned exactly; a 2xx
status-query response's parsed body (the task state) is returned exactly; the
submit URL is the `/submit-images` endpoint and the status-query URL carries
`task_id` and `legacy` as query parameters. -/
theorem submit_returns_task_id (s : SubmitResponse) (g : QueryResponse)
    (base taskId : String) :
    (s.ok = true → submitImages s = Except.ok s.task_id)
    ∧ (g.ok = true → getResult g = Except.ok g.body)
    ∧ submitImagesUrl base = base ++ "/submit-images"
    ∧ getObjectUrl base taskId true =
        base ++ "/get-object?task_id=" ++ taskId ++ "&legacy=" ++ "true"
    ∧ getObjectUrl base taskId false =
        base ++ "/get-object?task_id=" ++ taskId ++ "&legacy=" ++ "false" := by
  refine ⟨?_, ?_, rfl, rfl, rfl⟩
  · intro h
    simp [submitImages, h]
  · intro h
    simp [getResult, h]

/-- Witness for C4 at a concrete 2xx response. -/
theorem submit_returns_task_id_witness :
    (⟨true, noText, taskIdDemo⟩ : SubmitResponse).ok = true
    ∧ submitImages ⟨true, noText, taskIdDemo⟩ = Except.ok taskIdDemo :=
  ⟨rfl, (submit_returns_task_id ⟨true, noText, taskIdDemo⟩
    ⟨true, noText, ⟨0, TaskState.created, none⟩⟩ noText noText).1 rfl⟩

/-- Claim C5: the submit request's integer format codes select exactly the
four formats `1=obj, 2=glb, 3=stl, 4=fbx`, and the default code 2 selects
GLB. -/
theorem format_codes_spec :
    formatOfCode 1 = some ModelFormat.obj
    ∧ formatOfCode 2 = some ModelFormat.glb
    ∧ formatOfCode 3 = some ModelFormat.stl
    ∧ formatOfCode 4 = some ModelFormat.fbx
    ∧ formatOfCode defaultFormatCode = some ModelFormat.glb
    ∧ (∀ c : Int,
        (formatOfCode c).isSome = true ↔ (c = 1 ∨ c = 2 ∨ c = 3 ∨ c = 4)) := by
  refine ⟨rfl, rfl, rfl, rfl, rfl, ?_⟩
  intro c
  unfold formatOfCode
  split_ifs <;> simp_all

/-- Claim C6: the client's state-to-percentage display mapping is exactly
`created=5, queueing=20, processing=60, success=100, failed=0`, while the
progress value the polling loop reports to its callback is the server-sent
legacy `progress` field, not a client-derived value. -/
theorem progress_mapping_spec :
    stateProgress TaskState.created = 5
    ∧ stateProgress TaskState.queueing = 20
    ∧ stateProgress TaskState.processing = 60
    ∧ stateProgress TaskState.success = 100
    ∧ stateProgress TaskState.failed = 0
    ∧ (∀ r : PollResponse, reportedProgress r = r.progress) :=
  ⟨rfl, rfl, rfl, rfl, rfl, fun _ => rfl⟩

/-- Claim C9: `setVolume` clamps its argument into `[0, 100]` and applies the
fraction `clamped / 100`, which always lies in `[0, 1]`; a subsequent
`volume()` read returns the clamped value, hence lies in `[0, 100]`; with no
audio output `setVolume` is a no-op and `volume()` returns 0. -/
theorem setVolume_spec (a : ℚ) (v : Int) :
    setVolume (some a) v = some (((cppClamp v 0 100 : Int) : ℚ) / 100)
    ∧ 0 ≤ ((cppClamp v 0 100 : Int) : ℚ) / 100
    ∧ ((cppClamp v 0 100 : Int) : ℚ) / 100 ≤ 1
    ∧ volume (setVolume (some a) v) = cppClamp v 0 100
    ∧ 0 ≤ volume (setVolume (some a) v)
    ∧ volume (setVolume (some a) v) ≤ 100
    ∧ setVolume none v = none
    ∧ volume none = 0 := by
  have hc := cppClamp_mem v 0 100 (by omega)
  have hvol : volume (setVolume (some a) v) = cppClamp v 0 100 := by
    have h100 : ((cppClamp v 0 100 : Int) : ℚ) / 100 * 100 =
        ((cppClamp v 0 100 : Int) : ℚ) := by
      field_simp
    simp only [setVolume, volume, h100]
    exact truncToInt_intCast _
  refine ⟨rfl, ?_, ?_, hvol, ?_, ?_, rfl, rfl⟩
  · apply div_nonneg _ (by norm_num)
    exact_mod_cast hc.1
  · rw [div_le_one (by norm_num)]
    exact_mod_cast hc.2
  · rw [hvol]
    exact hc.1
  · rw [hvol]
    exact hc.2

/-- Claim C2: for each 2xx poll response, `success` resolves with the result,
`failed` rejects with the attached (or generic) message, and any other state
schedules exactly one further poll after the fixed 2000 ms delay — the loop
continues on the rest of the stream; a terminal outcome never depends on any
later response. -/
theorem pollResult_terminal_spec (q : QueryResponse) (rest : List QueryResponse)
    (hok : q.ok = true) :
    (q.body.state = TaskState.success →
      pollResult (q :: rest) = PollOutcome.resolved q.body)
    ∧ (q.body.state = TaskState.failed →
      pollResult (q :: rest) =
        PollOutcome.rejected (q.body.message.getD genFailedMsg))
    ∧ (q.body.state ≠ TaskState.success → q.body.state ≠ TaskState.failed →
      pollStep q.body = PollAction.continueAfter 2000
      ∧ pollResult (q :: rest) = pollResult rest) := by
  refine ⟨?_, ?_, ?_⟩
  · intro h
    simp [pollResult, getResult, hok, pollStep, h]
  · intro h
    simp [pollResult, getResult, hok, pollStep, h]
  · intro h1 h2
    constructor
    · simp [pollStep, h1, h2]
    · simp [pollResult, getResult, hok, pollStep, h1, h2]

/-- Witness for C2: a success response resolves immediately, and a processing
response continues the loop on the rest of the stream. -/
theorem pollResult_terminal_spec_witness :
    pollResult [⟨true, noText, ⟨100, TaskState.success, none⟩⟩] =
      PollOutcome.resolved ⟨100, TaskState.success, none⟩
    ∧ pollResult [⟨true, noText, ⟨60, TaskState.processing, none⟩⟩] =
      pollResult [] :=
  ⟨(pollResult_terminal_spec ⟨true, noText, ⟨100, TaskState.success, none⟩⟩ []
      rfl).1 rfl,
   ((pollResult_terminal_spec ⟨true, noText, ⟨60, TaskState.processing, none⟩⟩ []
      rfl).2.2 (by simp) (by simp)).2⟩

/-- Claim C3: failures are terminal and reported with no retry — a non-2xx
submit or status-query response raises an error carrying the response text; a
non-2xx response inside the polling loop rejects it; a `failed` task rejects
with the task's attached message, or with the generic message when the
message is absent; in every case the outcome is the same whatever responses
follow, so nothing is re-attempted. -/
theorem failures_terminal (s : SubmitResponse) (g : QueryResponse)
    (rest : List QueryResponse) :
    (s.ok = false → submitImages s = Except.error (submitFailedMsg s.text))
    ∧ (g.ok = false → getResult g = Except.error (getResultFailedMsg g.text))
    ∧ (g.ok = false →
        pollResult (g :: rest) = PollOutcome.rejected (getResultFailedMsg g.text))
    ∧ (g.ok = true → g.body.state = TaskState.failed →
        ∀ m, g.body.message = some m →
        pollResult (g :: rest) = PollOutcome.rejected m)
    ∧ (g.ok = true → g.body.state = TaskState.failed → g.body.message = none →
        pollResult (g :: rest) = PollOutcome.rejected genFailedMsg) := by
  refine ⟨?_, ?_, ?_, ?_, ?_⟩
  · intro h
    simp [submitImages, h]
  · intro h
    simp [getResult, h]
  · intro h
    simp [pollResult, getResult, h]
  · intro hok hst m hm
    simp [pollResult, getResult, hok, pollStep, hst, hm]
  · intro hok hst hm
    simp [pollResult, getResult, hok, pollStep, hst, hm]

/-- Witness for C3: a non-2xx submit response errors with the response text,
and a `failed` task with no message rejects with the generic message. -/
theorem failures_terminal_witness :
    submitImages ⟨false, noText, taskIdDemo⟩ =
      Except.error (submitFailedMsg noText)
    ∧ pollResult [⟨true, noText, ⟨0, TaskState.failed, none⟩⟩] =
      PollOutcome.rejected genFailedMsg :=
  ⟨(failures_terminal ⟨false, noText, taskIdDemo⟩
      ⟨true, noText, ⟨0, TaskState.failed, none⟩⟩ []).1 rfl,
   (failures_terminal ⟨false, noText, taskIdDemo⟩
      ⟨true, noText, ⟨0, TaskState.failed, none⟩⟩ []).2.2.2.2 rfl rfl rfl⟩

/-- Claim C7: a request built by `handleSubmit` carries between 1 and 5
labelled images, its image fields are exactly the five optional labels copied
from the component state, and the fixed generation parameters are attached;
`handleSubmit` refuses to build a request when no label is set. -/
theorem handleSubmit_bounds (p : ImagePaths) (req : Hitem3DSubmitRequest)
    (h : handleSubmit p = some req) :
    1 ≤ requestImageCount req ∧ requestImageCount req ≤ 5
    ∧ req.front = p.front ∧ req.back = p.back ∧ req.left = p.left
    ∧ req.right = p.right ∧ req.other = p.other
    ∧ req.model = some hitemModelName ∧ req.format = some 2
    ∧ req.request_type = some 3 := by
  unfold handleSubmit at h
  split_ifs at h with hc
  have hreq := Option.some.inj h
  subst hreq
  have hcount : requestImageCount
      ⟨p.front, p.back, p.left, p.right, p.other,
        some 3, some hitemModelName, none, none, some 2, none⟩ = countKeys p :=
    rfl
  refine ⟨?_, ?_, rfl, rfl, rfl, rfl, rfl, rfl, rfl, rfl⟩
  · rw [hcount]
    omega
  · rw [hcount]
    have := List.length_filter_le (fun o : Option String => o.isSome)
      [p.front, p.back, p.left, p.right, p.other]
    simpa [countKeys] using this

/-- Witness for C7: a single labelled image yields a request with exactly one
image. -/
theorem handleSubmit_bounds_witness :
    handleSubmit ⟨none, none, none, none, some noText⟩ =
      some ⟨none, none, none, none, some noText,
        some 3, some hitemModelName, none, none, some 2, none⟩
    ∧ 1 ≤ requestImageCount ⟨none, none, none, none, some noText,
        some 3, some hitemModelName, none, none, some 2, none⟩ :=
  ⟨rfl, (handleSubmit_bounds ⟨none, none, none, none, some noText⟩ _ rfl).1⟩

/-- Claim C10: after every duration change the frame-mapping state satisfies
the invariant — the frame rate is positive (falling back to 30 when the
metadata rate is missing or non-positive), the total frame count is at least
1 exactly when the reported duration is positive and 0 otherwise, and the
position slider's range is `[0, max 0 (m_totalFrames - 1)]`. -/
theorem updateFrameMapping_invariant (m : Option ℚ) (d : Int) :
    0 < (updateFrameMapping m d).1
    ∧ (0 < d → 1 ≤ (updateFrameMapping m d).2)
    ∧ (d ≤ 0 → (updateFrameMapping m d).2 = 0)
    ∧ (updateFrameMapping none d).1 = 30
    ∧ (∀ x : ℚ, x ≤ 0 → (updateFrameMapping (some x) d).1 = 30)
    ∧ sliderRangeAfterDuration m d =
        (0, max 0 ((updateFrameMapping m d).2 - 1)) := by
  refine ⟨?_, ?_, ?_, ?_, ?_, rfl⟩
  · unfold updateFrameMapping
    cases m with
    | none => norm_num
    | some x =>
      by_cases hx : x ≤ 0
      · simp only [hx, if_pos]
        norm_num
      · simp only [hx, if_neg, if_false]
        push_neg at hx
        simpa using hx
  · intro hd
    unfold updateFrameMapping
    simp only [hd, if_pos]
    exact le_max_left 1 _
  · intro hd
    unfold updateFrameMapping
    have : ¬ 0 < d := by omega
    simp [this]
  · unfold updateFrameMapping
    norm_num
  · intro x hx
    unfold updateFrameMapping
    simp [hx]

/-- Witness for C10 at a metadata rate of 24 fps and a one-second duration. -/
theorem updateFrameMapping_invariant_witness :
    0 < (updateFrameMapping (some 24) 1000).1
    ∧ 1 ≤ (updateFrameMapping (some 24) 1000).2
    ∧ (updateFrameMapping none 1000).1 = 30 :=
  ⟨(updateFrameMapping_invariant (some 24) 1000).1,
   (updateFrameMapping_invariant (some 24) 1000).2.1 (by decide),
   (updateFrameMapping_invariant (some 24) 1000).2.2.2.1⟩

/-- A single lifecycle transition never decreases the lifecycle rank. -/
theorem stateStep_rank_le {s t : TaskState} (h : StateStep s t) :
    stateRank s ≤ stateRank t := by
  cases h <;> simp [stateRank]

/-- Any number of lifecycle transitions never decreases the lifecycle rank. -/
theorem stateReach_rank_le {s t : TaskState} (h : StateReach s t) :
    stateRank s ≤ stateRank t := by
  induction h with
  | refl => exact le_refl _
  | tail _ hstep ih => exact le_trans ih (stateStep_rank_le hstep)

/-- A 2xx response's parsed body. -/
theorem getResult_ok_eq {q : QueryResponse} {r : PollResponse}
    (h : getResult q = Except.ok r) : r = q.body := by
  unfold getResult at h
  split_ifs at h
  exact (Except.ok.inj h).symm

/-- The state sequence observed by the polling loop is rank-monotone whenever
consecutive server responses are related by the listed lifecycle
transitions. -/
theorem pollObserved_chain (rs : List QueryResponse)
    (h : List.Chain' (fun a b => StateReach a.body.state b.body.state) rs) :
    List.Chain' (fun a b : PollResponse => stateRank a.state ≤ stateRank b.state)
      (pollObserved rs) := by
  induction rs with
  | nil => simp [pollObserved]
  | cons q rest ih =>
    obtain ⟨hhead, htail⟩ := List.chain'_cons'.mp h
    unfold pollObserved
    cases hg : getResult q with
    | error e => simp
    | ok r =>
      by_cases ht : terminalState r.state
      · simp [ht]
      · simp only [ht, Bool.false_eq_true, if_false]
        rw [List.chain'_cons']
        refine ⟨?_, ih htail⟩
        intro y hy
        cases rest with
        | nil => simp [pollObserved] at hy
        | cons q2 rest2 =>
          have hr : r = q.body := getResult_ok_eq hg
          have hreach : StateReach q.body.state q2.body.state :=
            hhead q2 (by simp)
          revert hy
          unfold pollObserved
          cases hg2 : getResult q2 with
          | error e2 => simp
          | ok r2 =>
            have hr2 : r2 = q2.body := getResult_ok_eq hg2
            have hhd : (if terminalState r2.state then [r2]
                else r2 :: pollObserved rest2).head? = some r2 := by
              split <;> simp
            rw [hhd]
            intro hy
            have hy2 : y = r2 := by
              have := hy
              simp only [Option.mem_def, Option.some.injEq] at this
              exact this.symm
            subst hy2
            rw [hr, hr2]
            exact stateReach_rank_le hreach

/-- Claim C1: along the listed lifecycle transitions the observed state
sequence is monotone — once a later state is polled, no earlier state is
polled again — and `success` and `failed` admit no further transition, while
the client stops polling at them. -/
theorem observed_state_monotonic (rs : List QueryResponse)
    (h : List.Chain' (fun a b => StateReach a.body.state b.body.state) rs) :
    List.Chain' (fun a b : PollResponse => stateRank a.state ≤ stateRank b.state)
      (pollObserved rs)
    ∧ (∀ t, ¬ StateStep TaskState.success t)
    ∧ (∀ t, ¬ StateStep TaskState.failed t)
    ∧ (∀ q rest, q.ok = true → terminalState q.body.state = true →
        pollObserved (q :: rest) = [q.body]) := by
  refine ⟨pollObserved_chain rs h, ?_, ?_, ?_⟩
  · intro t hstep
    cases hstep
  · intro t hstep
    cases hstep
  · intro q rest hok hterm
    unfold pollObserved
    simp [getResult, hok, hterm]

/-- Witness for C1 on the concrete observation created → queueing → success. -/
theorem observed_state_monotonic_witness :
    List.Chain' (fun a b : QueryResponse => StateReach a.body.state b.body.state)
      [⟨true, noText, ⟨5, TaskState.created, none⟩⟩,
       ⟨true, noText, ⟨20, TaskState.queueing, none⟩⟩,
       ⟨true, noText, ⟨100, TaskState.success, none⟩⟩]
    ∧ List.Chain' (fun a b : PollResponse => stateRank a.state ≤ stateRank b.state)
      (pollObserved
        [⟨true, noText, ⟨5, TaskState.created, none⟩⟩,
         ⟨true, noText, ⟨20, TaskState.queueing, none⟩⟩,
         ⟨true, noText, ⟨100, TaskState.success, none⟩⟩]) := by
  have h1 : StateReach TaskState.created TaskState.queueing :=
    Relation.ReflTransGen.single StateStep.created_queueing
  have h2 : StateReach TaskState.queueing TaskState.success :=
    Relation.ReflTransGen.head StateStep.queueing_processing
      (Relation.ReflTransGen.single StateStep.processing_success)
  have hchain : List.Chain'
      (fun a b : QueryResponse => StateReach a.body.state b.body.state)
      [⟨true, noText, ⟨5, TaskState.created, none⟩⟩,
       ⟨true, noText, ⟨20, TaskState.queueing, none⟩⟩,
       ⟨true, noText, ⟨100, TaskState.success, none⟩⟩] := by
    refine List.chain'_cons.mpr ⟨h1, List.chain'_cons.mpr ⟨h2, ?_⟩⟩
    exact List.chain'_singleton _
  exact ⟨hchain,
    (observed_state_monotonic
      [⟨true, noText, ⟨5, TaskState.created, none⟩⟩,
       ⟨true, noText, ⟨20, TaskState.queueing, none⟩⟩,
       ⟨true, noText, ⟨100, TaskState.success, none⟩⟩] hchain).1⟩

/-- Rounding recovers an integer from any rational strictly within half a
unit of it. -/
theorem round_eq_of_abs_lt {x : ℚ} {n : Int} (h : |x - n| < 1/2) :
    round x = n := by
  rw [round_eq, Int.floor_eq_iff]
  rw [abs_lt] at h
  constructor
  · linarith [h.1]
  · linarith [h.2]

/-- Claim C8: for every frame rate strictly between 0 and 1000 fps and every
in-range frame index, converting the index to a millisecond position and back
recovers the index exactly. -/
theorem frameIndex_roundtrip (r : ℚ) (T i : Int)
    (h0 : 0 < r) (h1 : r < 1000) (hi0 : 0 ≤ i) (hiT : i ≤ T - 1) :
    positionToFrameIndex r T (frameIndexToPosition r i) = i := by
  have hr : ¬ r ≤ 0 := not_le.mpr h0
  set p : Int := round ((i : ℚ) / r * 1000) with hp
  have h2 : frameIndexToPosition r i = p := by
    simp [frameIndexToPosition, hr]
  have habs : |((i : ℚ) / r * 1000) - p| ≤ 1/2 := abs_sub_round _
  have hkey : round ((p : ℚ) * r / 1000) = i := by
    apply round_eq_of_abs_lt
    have hrne : r ≠ 0 := ne_of_gt h0
    have hEq : (p : ℚ) * r / 1000 - i =
        ((p : ℚ) - (i : ℚ) / r * 1000) * (r / 1000) := by
      field_simp
      ring
    rw [hEq, abs_mul]
    have h3 : |(p : ℚ) - (i : ℚ) / r * 1000| ≤ 1/2 := by
      rw [abs_sub_comm]
      exact habs
    have h4 : |r / 1000| = r / 1000 := abs_of_pos (by positivity)
    rw [h4]
    have h5 : r / 1000 < 1 := by
      rw [div_lt_one (by norm_num)]
      exact h1
    have h6 : (0:ℚ) ≤ r / 1000 := by positivity
    nlinarith [abs_nonneg ((p : ℚ) - (i : ℚ) / r * 1000)]
  rw [h2]
  simp only [positionToFrameIndex, hr, if_false, hkey]
  exact cppClamp_eq_self i 0 _ hi0 (le_max_of_le_right (by omega))

/-- Witness for C8 at 30 fps, 10 total frames, frame index 3. -/
theorem frameIndex_roundtrip_witness :
    (0:ℚ) < 30 ∧ (30:ℚ) < 1000 ∧ (0:Int) ≤ 3 ∧ (3:Int) ≤ 10 - 1
    ∧ positionToFrameIndex 30 10 (frameIndexToPosition 30 3) = 3 :=
  ⟨by decide, by decide, by decide, by decide,
   frameIndex_roundtrip 30 10 3 (by decide) (by decide) (by decide) (by decide)⟩

/-- Witness for C5: the default code selects GLB. -/
theorem format_codes_spec_witness :
    formatOfCode defaultFormatCode = some ModelFormat.glb :=
  format_codes_spec.2.2.2.2.1

/-- Witness for C6: the created state displays as 5 percent. -/
theorem progress_mapping_spec_witness :
    stateProgress TaskState.created = 5 :=
  progress_mapping_spec.1

/-- Witness for C9: an out-of-range volume of 150 is applied as 100. -/
theorem setVolume_spec_witness :
    volume (setVolume (some (7/10)) 150) = 100 := by
  rw [(setVolume_spec (7/10) 150).2.2.2.1]
  decide

end ArchiSpec
